import Mathlib

/-!
# Verification of `django_socio_grpc/generics.py` (`GenericService`)

Shallow embedding of the base generic service class: collection access
(`get_queryset`), lookup-field resolution (`get_lookup_request_field`),
object resolution with NotFound translation (`get_object` / `aget_object`),
the dual sync/async filter-backend chain (`filter_queryset` /
`afilter_queryset`), serializer construction with context injection
(`get_serializer`, `get_serializer_context`), and the cached paginator
(`paginator`, `paginate_queryset`).

Python exceptions are modelled with `Except PyExc`; object identity for
lazily-evaluated queryset handles, plain lists and paginator instances is
modelled with explicit identity tags, since `queryset.all()` and
`self.pagination_class()` create new Python objects.
-/

/-- Call-context metadata (gRPC context) supplied by the dispatch layer.
Opaque to this layer; only its identity matters here. -/
structure GrpcContext where
  cid : Nat
deriving DecidableEq, Repr

/-- Inbound request message: a bag of named attributes.  `getattr` /
`hasattr` on a protobuf message are modelled over this association list. -/
structure GrpcRequest where
  attrs : List (String × String)
deriving DecidableEq, Repr

/-- Python `hasattr(request, name)`. -/
def GrpcRequest.hasAttr (r : GrpcRequest) (name : String) : Bool :=
  (r.attrs.find? (fun p => p.1 = name)).isSome

/-- Python `getattr(request, name)` (callers guard with `hasAttr`). -/
def GrpcRequest.getAttr (r : GrpcRequest) (name : String) : String :=
  match r.attrs.find? (fun p => p.1 = name) with
  | some p => p.2
  | none => ""

/-- A persisted entity: named fields with values. -/
structure Entity where
  fields : List (String × String)
deriving DecidableEq, Repr

/-- Field access on an entity. -/
def Entity.getField (e : Entity) (name : String) : Option String :=
  (e.fields.find? (fun p => p.1 = name)).map Prod.snd

/-- Failure kinds the persistence layer raises while coercing a raw lookup
value to the field's type: `TypeError`, `ValueError`,
`django.core.exceptions.ValidationError`. -/
inductive CoerceError where
  | typeError
  | valueError
  | validationError
deriving DecidableEq, Repr

/-- Entity-type (Django model class) introspection data: class name,
primary-key field name, and per-field coercion of raw lookup values
(the source of `TypeError` / `ValueError` / `ValidationError` in lookups). -/
structure ModelInfo where
  name : String
  pkName : String
  coerceField : String → String → Except CoerceError String

/-- A model field as returned by primary-key introspection. -/
structure FieldInfo where
  name : String
deriving DecidableEq, Repr

/-- Modelled from the spec: `model_meta.get_model_pk` (in
`django_socio_grpc/utils/model_meta.py`, not under `src/`) exposes
"entity-type introspection (primary-key field name)"; it returns the
primary-key field of the model. -/
def get_model_pk (m : ModelInfo) : FieldInfo :=
  ⟨m.pkName⟩

/-- A lazily-evaluated queryset handle.  `hid` is the Python object
identity of the handle: `QuerySet.all()` clones the queryset, producing a
new object over the same model and rows. -/
structure QuerySet where
  model : ModelInfo
  elems : List Entity
  hid : Nat

/-- Django `QuerySet.all()`: returns a fresh handle (a clone, hence a new
object identity) over the same contents, so it is re-evaluated per request. -/
def QuerySet.all (qs : QuerySet) : QuerySet :=
  { qs with hid := qs.hid + 1 }

/-- A declared collection: either a lazily-evaluated queryset handle or a
plain iterable (e.g. a Python list, identified by `oid`). -/
inductive Coll where
  | querySet (qs : QuerySet)
  | plainList (oid : Nat) (elems : List Entity)

/-- Python exceptions observable from this layer. `notFound` is modelled
from the spec: `django_socio_grpc.exceptions.NotFound` (not under `src/`)
is "a single NotFound error kind" carrying a detail message. -/
inductive PyExc where
  | typeError
  | valueError
  | validationError
  | http404
  | doesNotExist
  | multipleObjectsReturned
  | attributeError
  | assertionError (msg : String)
  | notFound (detail : String)
  | permissionDenied
deriving DecidableEq, Repr

/-- Whether an exception is the NotFound kind. -/
def PyExc.isNotFound : PyExc → Bool
  | .notFound _ => true
  | _ => false

/-- `queryset.model` attribute access: plain lists have no `model`
attribute, so Python raises `AttributeError`. -/
def Coll.modelE : Coll → Except PyExc ModelInfo
  | .querySet qs => .ok qs.model
  | .plainList _ _ => .error .attributeError

/-- Models the external Django collaborator `QuerySet.get(**kwargs)`:
coerces the raw value for the lookup field (raising `TypeError`,
`ValueError` or `ValidationError` on a malformed value), then returns the
unique matching row, raising `DoesNotExist` on zero matches and
`MultipleObjectsReturned` on more than one. -/
def QuerySet.get (qs : QuerySet) (field : String) (value : String) :
    Except PyExc Entity :=
  match qs.model.coerceField field value with
  | .error .typeError => .error .typeError
  | .error .valueError => .error .valueError
  | .error .validationError => .error .validationError
  | .ok v =>
    match qs.elems.filter (fun e => e.getField field = some v) with
    | [] => .error .doesNotExist
    | [e] => .ok e
    | _ :: _ :: _ => .error .multipleObjectsReturned

/-- Models the external Django collaborator
`django.shortcuts.get_object_or_404`: calls `queryset.get(**kwargs)` and
re-raises only `DoesNotExist` as `Http404`; every other exception
(including `MultipleObjectsReturned`) propagates unchanged. -/
def get_object_or_404 (qs : QuerySet) (field value : String) :
    Except PyExc Entity :=
  match qs.get field value with
  | .error .doesNotExist => .error .http404
  | r => r

/-- A filter backend: `filter_queryset(context, queryset, service)`, whose
`filter_queryset` method is either a plain function or a coroutine function
(the service bridges accordingly).  The service argument is identified by
the service instance id. -/
inductive FilterBackend where
  | sync (f : GrpcContext → Coll → Nat → Coll)
  | async (f : GrpcContext → Coll → Nat → Coll)

/-- The underlying filtering function of a backend, its scheduling mode
forgotten. -/
def FilterBackend.run (b : FilterBackend) (ctx : GrpcContext) (qs : Coll)
    (sid : Nat) : Coll :=
  match b with
  | .sync f => f ctx qs sid
  | .async f => f ctx qs sid

/-- A serializer class (opaque: construction is what matters here). -/
structure SerializerClass where
  name : String
deriving DecidableEq, Repr

/-- A pagination class: instantiating it yields a paginator whose
`paginate_queryset(queryset, context, view=self)` produces a page or
`None`.  The view argument is identified by the service instance id. -/
structure PaginationClass where
  name : String
  paginate : Coll → GrpcContext → Nat → Option (List Entity)

/-- The `GenericService` configuration and per-call state: class-level
declarations (`queryset`, `serializer_class`, `lookup_field`,
`lookup_request_field`, `filter_backends`, `pagination_class`) plus the
per-call `request` and `context` supplied by the dispatch layer.
`check_object_permissions` is modelled from the spec: the permission
checker collaborator (`services.Service`, not under `src/`) exposes
"check(entity) -> pass|fail, sync and async variants" — one predicate
behind both call surfaces.  `instanceId` is the Python object identity of
the service instance; `className` its class name (used in diagnostics). -/
structure GenericService where
  instanceId : Nat
  className : String
  queryset : Option Coll
  serializer_class : Option SerializerClass
  lookup_field : Option String
  lookup_request_field : Option String
  filter_backends : List FilterBackend
  pagination_class : Option PaginationClass
  request : GrpcRequest
  context : GrpcContext
  check_object_permissions : Entity → Bool

/-- Python truthiness-based `a or b` for an optional string attribute
(`None` and `""` are falsy). -/
def pyOr (a : Option String) (b : String) : String :=
  match a with
  | some s => if s = "" then b else s
  | none => b

/-- The assertion message of `get_queryset`. -/
def querysetAssertMsg (svc : GenericService) : String :=
  "'" ++ svc.className ++ "' should either include a ``queryset`` attribute, or override the ``get_queryset()`` method."

/-- `GenericService.get_queryset`: asserts the `queryset` declaration is
present, and when it is a lazily-evaluated `QuerySet` re-derives it with
`.all()` so it is re-evaluated on each request; any other iterable is
returned as is. -/
def GenericService.get_queryset (svc : GenericService) : Except PyExc Coll :=
  match svc.queryset with
  | none => .error (.assertionError (querysetAssertMsg svc))
  | some queryset =>
    match queryset with
    | .querySet qs => .ok (.querySet qs.all)
    | .plainList oid elems => .ok (.plainList oid elems)

/-- `GenericService.get_lookup_request_field(queryset=None)`:
`lookup_field = self.lookup_field or model_meta.get_model_pk(queryset.model).name`
then `self.lookup_request_field or lookup_field`, with Python
short-circuit evaluation (the model is only consulted when `lookup_field`
is falsy). -/
def GenericService.get_lookup_request_field (svc : GenericService)
    (queryset : Option Coll) : Except PyExc String := do
  let q ← match queryset with
    | none => svc.get_queryset
    | some c => pure c
  let lookup_field ←
    match svc.lookup_field with
    | some s =>
      if s = "" then do
        let m ← q.modelE
        pure (get_model_pk m).name
      else
        pure s
    | none => do
      let m ← q.modelE
      pure (get_model_pk m).name
  pure (pyOr svc.lookup_request_field lookup_field)

/-- The body of the sync `for backend in list(self.filter_backends)` loop:
a coroutine-function backend is bridged with `async_to_sync` (run to
completion), a plain one is called directly; either way the backend
receives the call context, the current queryset and the service. -/
def run_backends_sync : List FilterBackend → GrpcContext → Nat → Coll → Coll
  | [], _, _, queryset => queryset
  | backend :: rest, ctx, sid, queryset =>
    match backend with
    | .async f => run_backends_sync rest ctx sid (f ctx queryset sid)
    | .sync f => run_backends_sync rest ctx sid (f ctx queryset sid)

/-- The body of the async `for backend in list(self.filter_backends)` loop:
a coroutine-function backend is awaited, a plain one is offloaded with
`sync_to_async`; either way the backend receives the call context, the
current queryset and the service, in declared order. -/
def run_backends_async : List FilterBackend → GrpcContext → Nat → Coll → Coll
  | [], _, _, queryset => queryset
  | backend :: rest, ctx, sid, queryset =>
    match backend with
    | .async f => run_backends_async rest ctx sid (f ctx queryset sid)
    | .sync f => run_backends_async rest ctx sid (f ctx queryset sid)

/-- `GenericService.filter_queryset`: folds the declared filter backends
over the queryset (the logged warning about an overridden `afilter_queryset`
is a side effect with no bearing on the result and is not modelled). -/
def GenericService.filter_queryset (svc : GenericService) (queryset : Coll) :
    Coll :=
  run_backends_sync svc.filter_backends svc.context svc.instanceId queryset

/-- `GenericService.afilter_queryset`: the async twin of
`filter_queryset`, bridging each backend the opposite way. -/
def GenericService.afilter_queryset (svc : GenericService) (queryset : Coll) :
    Coll :=
  run_backends_async svc.filter_backends svc.context svc.instanceId queryset

/-- The exception tuple `(TypeError, ValueError, ValidationError, Http404)`
caught around `get_object_or_404` in `get_object` / `aget_object`. -/
def caughtByGetObject : PyExc → Bool
  | .typeError => true
  | .valueError => true
  | .validationError => true
  | .http404 => true
  | _ => false

/-- The NotFound detail `f"{queryset.model.__name__}: {lookup_value} not found!"`. -/
def notFoundMsg (modelName lookupValue : String) : String :=
  modelName ++ ": " ++ lookupValue ++ " not found!"

/-- The assertion message of `get_object` / `aget_object` when the request
lacks the resolved lookup attribute. -/
def lookupAssertMsg (svc : GenericService) (lookupRequestField : String) :
    String :=
  "Expected service " ++ svc.className ++
    " to be called with request that has a field named \"" ++
    lookupRequestField ++
    "\". Fix your request protocol definition, or set the `.lookup_field` attribute on the service correctly."

/-- The query-and-translate step of `get_object`: runs
`get_object_or_404(queryset, **{field: value})` and re-raises any of the
caught exception kinds as `NotFound` with the model name and the attempted
lookup value; other exceptions (e.g. `MultipleObjectsReturned`) propagate.
On a plain-list collection Django's `get_object_or_404` raises a caught
`ValueError`, and building the NotFound detail then dereferences
`queryset.model`, which raises `AttributeError`. -/
def lookupStep (q : Coll) (field value : String) : Except PyExc Entity :=
  match q with
  | .plainList _ _ => .error .attributeError
  | .querySet qs =>
    match get_object_or_404 qs field value with
    | .error e =>
      if caughtByGetObject e then
        .error (.notFound (notFoundMsg qs.model.name value))
      else
        .error e
    | .ok obj => .ok obj

/-- `GenericService.get_object`: filter the base queryset, resolve the
lookup field, assert the request carries it, query for exactly one entity
translating lookup failures to `NotFound`, then run the object-level
permission check. -/
def GenericService.get_object (svc : GenericService) : Except PyExc Entity := do
  let queryset := svc.filter_queryset (← svc.get_queryset)
  let lookup_request_field ← svc.get_lookup_request_field (some queryset)
  if svc.request.hasAttr lookup_request_field then
    let lookup_value := svc.request.getAttr lookup_request_field
    let obj ← lookupStep queryset lookup_request_field lookup_value
    if svc.check_object_permissions obj then
      pure obj
    else
      .error .permissionDenied
  else
    .error (.assertionError (lookupAssertMsg svc lookup_request_field))

/-- `GenericService.aget_object`: the async twin — the base queryset is
fetched through `sync_to_async`, filtering goes through
`afilter_queryset`, the query through `sync_to_async(get_object_or_404)`,
and the permission check through `acheck_object_permissions`; the steps and
the exception translation are otherwise those of `get_object`. -/
def GenericService.aget_object (svc : GenericService) : Except PyExc Entity := do
  let queryset := svc.afilter_queryset (← svc.get_queryset)
  let lookup_request_field ← svc.get_lookup_request_field (some queryset)
  if svc.request.hasAttr lookup_request_field then
    let lookup_value := svc.request.getAttr lookup_request_field
    let obj ← lookupStep queryset lookup_request_field lookup_value
    if svc.check_object_permissions obj then
      pure obj
    else
      .error .permissionDenied
  else
    .error (.assertionError (lookupAssertMsg svc lookup_request_field))

/-- A value stored in the serializer context mapping. -/
inductive CtxVal where
  | req (r : GrpcRequest)
  | gctx (c : GrpcContext)
  | service (s : GenericService)

/-- A constructed serializer instance: its class, the positional
arguments, and the context it was constructed with. -/
structure Serializer where
  cls : SerializerClass
  args : List String
  context : List (String × CtxVal)

/-- The assertion message of `get_serializer_class`. -/
def serializerAssertMsg (svc : GenericService) : String :=
  "'" ++ svc.className ++ "' should either include a `serializer_class` attribute, or override the `get_serializer_class()` method."

/-- `GenericService.get_serializer_class`: asserts the declaration is
present and returns it. -/
def GenericService.get_serializer_class (svc : GenericService) :
    Except PyExc SerializerClass :=
  match svc.serializer_class with
  | none => .error (.assertionError (serializerAssertMsg svc))
  | some c => .ok c

/-- `GenericService.get_serializer_context`: the mapping
`{"grpc_request": self.request, "grpc_context": self.context, "service": self}`. -/
def GenericService.get_serializer_context (svc : GenericService) :
    List (String × CtxVal) :=
  [("grpc_request", .req svc.request),
   ("grpc_context", .gctx svc.context),
   ("service", .service svc)]

/-- `GenericService.get_serializer(*args, **kwargs)`:
`kwargs.setdefault("context", self.get_serializer_context())` then
constructs the serializer class with the arguments.  `contextKw` is the
`context` entry of `kwargs` (absent when the caller supplies none). -/
def GenericService.get_serializer (svc : GenericService) (args : List String)
    (contextKw : Option (List (String × CtxVal))) : Except PyExc Serializer := do
  let serializer_class ← svc.get_serializer_class
  let ctx := match contextKw with
    | some c => c
    | none => svc.get_serializer_context
  pure ⟨serializer_class, args, ctx⟩

/-- A constructed paginator instance: its class, the service instance that
constructed it (`owner`) and an allocation serial — together the Python
object identity of the instance. -/
structure PaginatorInst where
  cls : PaginationClass
  owner : Nat
  serial : Nat

/-- The mutable per-service-instance state behind the `paginator` cached
property: the `_paginator` attribute (absent / `None` / an instance), plus
an allocation counter for object identities and a count of how many times
a pagination class has been instantiated. -/
structure SvcState where
  pagCache : Option (Option PaginatorInst)
  nextSerial : Nat
  constructions : Nat

/-- The state of a freshly constructed service instance: no `_paginator`
attribute, nothing constructed yet. -/
def freshSvcState : SvcState :=
  ⟨none, 0, 0⟩

/-- `GenericService.paginator` (cached property): on first access stores
`None` when `pagination_class` is unset, else a newly constructed
instance `self.pagination_class()`; later accesses return the stored value. -/
def GenericService.paginator (svc : GenericService) (st : SvcState) :
    Option PaginatorInst × SvcState :=
  match st.pagCache with
  | some v => (v, st)
  | none =>
    match svc.pagination_class with
    | none => (none, { st with pagCache := some none })
    | some cls =>
      let inst : PaginatorInst := ⟨cls, svc.instanceId, st.nextSerial⟩
      (some inst,
        { pagCache := some (some inst),
          nextSerial := st.nextSerial + 1,
          constructions := st.constructions + 1 })

/-- `GenericService.paginate_queryset`: returns `None` when the paginator
is `None`, else delegates
`self.paginator.paginate_queryset(queryset, self.context, view=self)`. -/
def GenericService.paginate_queryset (svc : GenericService) (st : SvcState)
    (queryset : Coll) : Option (List Entity) × SvcState :=
  match svc.paginator st with
  | (none, st') => (none, st')
  | (some p, st') => (p.cls.paginate queryset svc.context svc.instanceId, st')

/-- `n` successive accesses to the `paginator` property on one service
instance, threading its state. -/
def accessPaginatorN (svc : GenericService) (st : SvcState) : Nat → SvcState
  | 0 => st
  | n + 1 => (svc.paginator (accessPaginatorN svc st n)).2

/-- Whether an object-resolution outcome is a raised `NotFound`. -/
def raisedNotFound : Except PyExc Entity → Bool
  | .error e => e.isNotFound
  | .ok _ => false

/-! ## Concrete fixtures used by witnesses and counterexamples -/

/-- A `User` model with integer primary key `id`: coercion of a lookup
value fails with `ValueError` unless it parses as a number. -/
def userModel : ModelInfo :=
  { name := "User"
    pkName := "id"
    coerceField := fun _ v =>
      if !v.data.isEmpty && v.data.all Char.isDigit then .ok v
      else .error .valueError }

/-- A sample entity with `id = 1`. -/
def user1 : Entity := ⟨[("id", "1"), ("email", "a@example.com")]⟩

/-- A sample entity with `id = 2`. -/
def user2 : Entity := ⟨[("id", "2"), ("email", "b@example.com")]⟩

/-- A second sample entity with `id = 1` (for duplicate-match scenarios). -/
def user1dup : Entity := ⟨[("id", "1"), ("email", "c@example.com")]⟩

/-- The declared base queryset over `userModel`. -/
def userQS : QuerySet := ⟨userModel, [user1, user2], 0⟩

/-- A paginator class that returns the first element as the page. -/
def pagClass : PaginationClass :=
  { name := "PageNumberPagination"
    paginate := fun c _ _ =>
      match c with
      | .querySet qs => some (qs.elems.take 1)
      | .plainList _ es => some (es.take 1) }

/-- A plain service configuration: `User` queryset, no lookup overrides,
no filter backends, no pagination, request carrying `id = "1"`. -/
def baseSvc : GenericService :=
  { instanceId := 0
    className := "UserService"
    queryset := some (.querySet userQS)
    serializer_class := some ⟨"UserProtoSerializer"⟩
    lookup_field := none
    lookup_request_field := none
    filter_backends := []
    pagination_class := none
    request := ⟨[("id", "1")]⟩
    context := ⟨7⟩
    check_object_permissions := fun _ => true }

/-- `baseSvc` with both lookup overrides set. -/
def svcBothOverrides : GenericService :=
  { baseSvc with lookup_field := some "email", lookup_request_field := some "user_id" }

/-- `baseSvc` with only the `lookup_field` override set. -/
def svcLookupField : GenericService :=
  { baseSvc with lookup_field := some "email" }

/-- `baseSvc` without a declared queryset. -/
def svcNoQueryset : GenericService :=
  { baseSvc with queryset := none }

/-- `baseSvc` with a plain list declared as the collection. -/
def svcPlainList : GenericService :=
  { baseSvc with queryset := some (.plainList 42 [user1, user2]) }

/-- `baseSvc` whose request lacks the resolved lookup attribute `id`. -/
def svcMissingAttr : GenericService :=
  { baseSvc with request := ⟨[("pk", "1")]⟩ }

/-- `baseSvc` whose queryset holds two entities with `id = 1`, the value
the request looks up. -/
def svcMulti : GenericService :=
  { baseSvc with queryset := some (.querySet ⟨userModel, [user1, user1dup], 0⟩) }

/-- `baseSvc` whose request looks up `id = 3`, matching zero entities. -/
def svcZeroMatch : GenericService :=
  { baseSvc with request := ⟨[("id", "3")]⟩ }

/-- `baseSvc` with pagination configured. -/
def svcPag : GenericService :=
  { baseSvc with pagination_class := some pagClass }

/-- A distinct service instance with pagination configured. -/
def svcPag2 : GenericService :=
  { baseSvc with instanceId := 1, pagination_class := some pagClass }

/-! ## Helper lemmas -/

/-- Both loop bodies apply the backend's underlying function and recurse:
the sync executor is the fold of `FilterBackend.run`. -/
theorem run_backends_sync_eq_foldl (bs : List FilterBackend)
    (ctx : GrpcContext) (sid : Nat) (qs : Coll) :
    run_backends_sync bs ctx sid qs =
      bs.foldl (fun q b => b.run ctx q sid) qs := by
  induction bs generalizing qs with
  | nil => rfl
  | cons b rest ih =>
    cases b <;> simp [run_backends_sync, FilterBackend.run, List.foldl, ih]

/-- The async executor is the same fold of `FilterBackend.run`. -/
theorem run_backends_async_eq_foldl (bs : List FilterBackend)
    (ctx : GrpcContext) (sid : Nat) (qs : Coll) :
    run_backends_async bs ctx sid qs =
      bs.foldl (fun q b => b.run ctx q sid) qs := by
  induction bs generalizing qs with
  | nil => rfl
  | cons b rest ih =>
    cases b <;> simp [run_backends_async, FilterBackend.run, List.foldl, ih]

/-- `afilter_queryset` computes the same collection as `filter_queryset`. -/
theorem afilter_queryset_eq (svc : GenericService) (queryset : Coll) :
    svc.afilter_queryset queryset = svc.filter_queryset queryset := by
  simp [GenericService.afilter_queryset, GenericService.filter_queryset,
    run_backends_sync_eq_foldl, run_backends_async_eq_foldl]

/-! ## Claim theorems -/

/-- Claim C5: for every ordered list of filter backends and every input
collection, `filter_queryset` and `afilter_queryset` fold the backends
over the collection in declared order — each backend receives the original
call context and the output collection of the previous backend — and the
result does not depend on whether each backend is synchronous or
asynchronous (both executors compute the same fold of the underlying
filtering functions). -/
theorem filter_chain_fold_order (svc : GenericService) (queryset : Coll) :
    svc.filter_queryset queryset =
      svc.filter_backends.foldl
        (fun q b => b.run svc.context q svc.instanceId) queryset
    ∧ svc.afilter_queryset queryset = svc.filter_queryset queryset := by
  refine ⟨?_, afilter_queryset_eq svc queryset⟩
  simp [GenericService.filter_queryset, run_backends_sync_eq_foldl]

/-- Claim C2: for every service configuration, collection contents and
lookup value, the synchronous `get_object` and the asynchronous
`aget_object` produce identical observable results — the same resolved
entity, or the same exception (in particular the identical NotFound
message). -/
theorem get_object_aget_object_equiv (svc : GenericService) :
    svc.aget_object = svc.get_object := by
  unfold GenericService.aget_object GenericService.get_object
  simp only [afilter_queryset_eq]

/-- Claim C3: `get_lookup_request_field` resolves the effective lookup
field name with the precedence (explicit `lookup_request_field` override)
over (explicit `lookup_field` override) over (the entity's primary-key
field name), and the entity type is consulted for its primary-key field
name only when no explicit `lookup_field` override exists: with the
override set, the result does not depend on the queryset's model. -/
theorem get_lookup_request_field_precedence (svc : GenericService)
    (qs : QuerySet) :
    (∀ rf, svc.lookup_request_field = some rf → rf ≠ "" →
      svc.get_lookup_request_field (some (.querySet qs)) = .ok rf)
    ∧ (∀ f, svc.lookup_request_field = none → svc.lookup_field = some f →
        f ≠ "" →
        svc.get_lookup_request_field (some (.querySet qs)) = .ok f)
    ∧ (svc.lookup_request_field = none → svc.lookup_field = none →
        svc.get_lookup_request_field (some (.querySet qs)) =
          .ok qs.model.pkName)
    ∧ (∀ f, svc.lookup_field = some f → f ≠ "" → ∀ m : ModelInfo,
        svc.get_lookup_request_field (some (.querySet { qs with model := m }))
          = svc.get_lookup_request_field (some (.querySet qs))) := by
  refine ⟨?_, ?_, ?_, ?_⟩
  · intro rf hrf hne
    rcases hlf : svc.lookup_field with _ | f
    · simp [GenericService.get_lookup_request_field, hlf, hrf, hne,
        Coll.modelE, get_model_pk, pyOr, pure, Except.pure, bind, Except.bind]
    · by_cases hf : f = "" <;>
        simp [GenericService.get_lookup_request_field, hlf, hrf, hne, hf,
          Coll.modelE, get_model_pk, pyOr, pure, Except.pure, bind, Except.bind]
  · intro f hrf hlf hne
    simp [GenericService.get_lookup_request_field, hlf, hrf, hne,
      Coll.modelE, get_model_pk, pyOr, pure, Except.pure, bind, Except.bind]
  · intro hrf hlf
    simp [GenericService.get_lookup_request_field, hlf, hrf,
      Coll.modelE, get_model_pk, pyOr, pure, Except.pure, bind, Except.bind]
  · intro f hlf hne m
    simp [GenericService.get_lookup_request_field, hlf, hne,
      Coll.modelE, get_model_pk, pyOr, pure, Except.pure, bind, Except.bind]

/-- Witness for C3: with both overrides set the request-field override
wins; with only `lookup_field` set it wins over the primary key; with no
overrides the primary-key field name `id` is used. -/
theorem get_lookup_request_field_precedence_witness :
    svcBothOverrides.get_lookup_request_field (some (.querySet userQS)) =
      .ok "user_id"
    ∧ svcLookupField.get_lookup_request_field (some (.querySet userQS)) =
      .ok "email"
    ∧ baseSvc.get_lookup_request_field (some (.querySet userQS)) =
      .ok "id" :=
  ⟨(get_lookup_request_field_precedence svcBothOverrides userQS).1 "user_id"
      rfl (by decide),
   (get_lookup_request_field_precedence svcLookupField userQS).2.1 "email"
      rfl rfl (by decide),
   (get_lookup_request_field_precedence baseSvc userQS).2.2.1 rfl rfl⟩

/-- Claim C7: `get_queryset` fails with an assertion-style configuration
error exactly when no `queryset` is declared (with the documented message),
and when the declared collection is a lazily-evaluated queryset handle
every call re-derives a fresh handle — a different object than the declared
one — over the same model and contents, rather than returning the declared
handle itself. -/
theorem get_queryset_assertion_and_freshness (svc : GenericService) :
    ((∃ e, svc.get_queryset = .error e) ↔ svc.queryset = none)
    ∧ (svc.queryset = none →
        svc.get_queryset = .error (.assertionError (querysetAssertMsg svc)))
    ∧ (∀ qs : QuerySet, svc.queryset = some (.querySet qs) →
        svc.get_queryset = .ok (.querySet qs.all)
        ∧ Coll.querySet qs.all ≠ Coll.querySet qs
        ∧ qs.all.elems = qs.elems ∧ qs.all.model = qs.model) := by
  refine ⟨⟨?_, ?_⟩, ?_, ?_⟩
  · rintro ⟨e, he⟩
    rcases hq : svc.queryset with _ | c
    · rfl
    · exfalso
      cases c <;> simp [GenericService.get_queryset, hq] at he
  · intro hq
    exact ⟨.assertionError (querysetAssertMsg svc),
      by simp [GenericService.get_queryset, hq]⟩
  · intro hq
    simp [GenericService.get_queryset, hq]
  · intro qs hq
    refine ⟨by simp [GenericService.get_queryset, hq], ?_, rfl, rfl⟩
    intro h
    have h2 : qs.all = qs := by
      injection h
    have h3 : qs.hid + 1 = qs.hid := congrArg QuerySet.hid h2
    omega

/-- Witness for C7: the service without a declared queryset asserts with
the documented message; the service declaring the `User` queryset gets the
re-derived handle `userQS.all`, which differs from the declared handle. -/
theorem get_queryset_assertion_and_freshness_witness :
    svcNoQueryset.get_queryset =
      .error (.assertionError (querysetAssertMsg svcNoQueryset))
    ∧ baseSvc.get_queryset = .ok (.querySet userQS.all)
    ∧ Coll.querySet userQS.all ≠ Coll.querySet userQS :=
  ⟨(get_queryset_assertion_and_freshness svcNoQueryset).2.1 rfl,
   ((get_queryset_assertion_and_freshness baseSvc).2.2 userQS rfl).1,
   ((get_queryset_assertion_and_freshness baseSvc).2.2 userQS rfl).2.1⟩

/-- Claim C10: the fresh-handle re-derivation in `get_queryset` applies
only to lazily-evaluated queryset handles; a declared plain list is
returned as the very same object (same identity, same elements),
unchanged, so the per-call freshness guarantee does not hold there. -/
theorem get_queryset_plain_list_unchanged (svc : GenericService) (oid : Nat)
    (elems : List Entity)
    (h : svc.queryset = some (.plainList oid elems)) :
    svc.get_queryset = .ok (.plainList oid elems) := by
  simp [GenericService.get_queryset, h]

/-- Witness for C10: the service declaring the plain list (object identity
42) gets exactly that list back from `get_queryset`. -/
theorem get_queryset_plain_list_unchanged_witness :
    svcPlainList.get_queryset = .ok (.plainList 42 [user1, user2]) :=
  get_queryset_plain_list_unchanged svcPlainList 42 [user1, user2] rfl

/-- Claim C4: when the request lacks an attribute named after the resolved
lookup field, `get_object` and `aget_object` halt with the assertion-style
configuration error (with the documented message), before the collection
is ever queried; in that case they never raise `NotFound` and never return
a result. -/
theorem get_object_missing_lookup_attr_asserts (svc : GenericService)
    (q0 : Coll) (lrf : String)
    (h1 : svc.get_queryset = .ok q0)
    (h2 : svc.get_lookup_request_field (some (svc.filter_queryset q0)) =
      .ok lrf)
    (h3 : svc.request.hasAttr lrf = false) :
    svc.get_object = .error (.assertionError (lookupAssertMsg svc lrf))
    ∧ svc.aget_object = .error (.assertionError (lookupAssertMsg svc lrf))
    ∧ raisedNotFound svc.get_object = false := by
  have hsync : svc.get_object =
      .error (.assertionError (lookupAssertMsg svc lrf)) := by
    simp [GenericService.get_object, h1, h2, h3, bind, Except.bind]
  have hasync : svc.aget_object =
      .error (.assertionError (lookupAssertMsg svc lrf)) := by
    simp [GenericService.aget_object, afilter_queryset_eq, h1, h2, h3,
      bind, Except.bind]
  refine ⟨hsync, hasync, ?_⟩
  rw [hsync]
  rfl

/-- Witness for C4: the service whose request carries only `pk` (while the
resolved lookup field is `id`) asserts with the documented message and
does not raise NotFound. -/
theorem get_object_missing_lookup_attr_asserts_witness :
    svcMissingAttr.get_object =
      .error (.assertionError (lookupAssertMsg svcMissingAttr "id"))
    ∧ raisedNotFound svcMissingAttr.get_object = false :=
  ⟨(get_object_missing_lookup_attr_asserts svcMissingAttr
      (.querySet userQS.all) "id" rfl rfl rfl).1,
   (get_object_missing_lookup_attr_asserts svcMissingAttr
      (.querySet userQS.all) "id" rfl rfl rfl).2.2⟩

/-- Counterexample to Claim C1 as stated: on the service whose queryset
holds two entities with `id = 1` and whose request looks up `id = 1`, the
single-entity query fails by matching multiple entities, yet `get_object`
propagates the underlying persistence-layer `MultipleObjectsReturned`
exception to the caller instead of re-raising it as `NotFound` — the
`except (TypeError, ValueError, ValidationError, Http404)` clause does not
catch it. -/
theorem get_object_multiple_match_not_notfound :
    svcMulti.get_object = .error .multipleObjectsReturned
    ∧ raisedNotFound svcMulti.get_object = false := by
  exact ⟨rfl, rfl⟩

/-- Claim C1 (amended): if the single-entity query inside `get_object` /
`aget_object` fails with a type mismatch, value mismatch, validation
failure or zero matches (`TypeError`, `ValueError`, `ValidationError`, or
`Http404` from zero matches), the failure is caught and re-raised as the
single `NotFound` error kind whose message is
`"<model name>: <lookup value> not found!"` — containing the entity type
name and the attempted lookup value — and the caller does not observe the
underlying exception type; a query matching multiple entities, however,
propagates the underlying `MultipleObjectsReturned` exception unchanged. -/
theorem get_object_normalizes_caught_failures (svc : GenericService)
    (q0 : Coll) (qs : QuerySet) (lrf v : String) (e : PyExc)
    (h1 : svc.get_queryset = .ok q0)
    (hq : svc.filter_queryset q0 = .querySet qs)
    (h2 : svc.get_lookup_request_field (some (.querySet qs)) = .ok lrf)
    (h3 : svc.request.hasAttr lrf = true)
    (hv : svc.request.getAttr lrf = v)
    (he : get_object_or_404 qs lrf v = .error e)
    (hc : caughtByGetObject e = true) :
    svc.get_object = .error (.notFound (notFoundMsg qs.model.name v))
    ∧ svc.aget_object = .error (.notFound (notFoundMsg qs.model.name v))
    ∧ notFoundMsg qs.model.name v =
        qs.model.name ++ ": " ++ v ++ " not found!" := by
  have hstep : lookupStep (.querySet qs) lrf v =
      .error (.notFound (notFoundMsg qs.model.name v)) := by
    simp [lookupStep, he, hc]
  have hsync : svc.get_object =
      .error (.notFound (notFoundMsg qs.model.name v)) := by
    simp [GenericService.get_object, h1, hq, h2, h3, hv, hstep,
      bind, Except.bind]
  have hasync : svc.aget_object =
      .error (.notFound (notFoundMsg qs.model.name v)) := by
    simp [GenericService.aget_object, afilter_queryset_eq, h1, hq, h2, h3,
      hv, hstep, bind, Except.bind]
  exact ⟨hsync, hasync, rfl⟩

/-- Witness for C1 (amended): the service looking up `id = 3`, which
matches zero entities, raises `NotFound` with detail `"User: 3 not
found!"` from both `get_object` and `aget_object`. -/
theorem get_object_normalizes_caught_failures_witness :
    svcZeroMatch.get_object = .error (.notFound "User: 3 not found!")
    ∧ svcZeroMatch.aget_object = .error (.notFound "User: 3 not found!") :=
  ⟨(get_object_normalizes_caught_failures svcZeroMatch
      (.querySet userQS.all) userQS.all "id" "3" .http404
      rfl rfl rfl rfl rfl rfl rfl).1,
   (get_object_normalizes_caught_failures svcZeroMatch
      (.querySet userQS.all) userQS.all "id" "3" .http404
      rfl rfl rfl rfl rfl rfl rfl).2.1⟩

/-- Claim C6: when the caller supplies no context, a serializer
constructed through `get_serializer` receives as context exactly the
three-entry mapping with the inbound request, the call context and the
service instance — no more and no fewer. -/
theorem get_serializer_context_exactly_three (svc : GenericService)
    (cls : SerializerClass) (args : List String)
    (h : svc.serializer_class = some cls) :
    svc.get_serializer args none =
      .ok ⟨cls, args, svc.get_serializer_context⟩
    ∧ svc.get_serializer_context =
        [("grpc_request", .req svc.request),
         ("grpc_context", .gctx svc.context),
         ("service", .service svc)]
    ∧ (svc.get_serializer_context).map Prod.fst =
        ["grpc_request", "grpc_context", "service"] := by
  refine ⟨?_, rfl, rfl⟩
  simp [GenericService.get_serializer, GenericService.get_serializer_class,
    h, bind, Except.bind, pure, Except.pure]

/-- Witness for C6: the plain service's serializer, constructed with no
caller-supplied context, carries exactly the three documented entries. -/
theorem get_serializer_context_exactly_three_witness :
    baseSvc.get_serializer [] none =
      .ok ⟨⟨"UserProtoSerializer"⟩, [], baseSvc.get_serializer_context⟩
    ∧ (baseSvc.get_serializer_context).map Prod.fst =
      ["grpc_request", "grpc_context", "service"] :=
  ⟨(get_serializer_context_exactly_three baseSvc ⟨"UserProtoSerializer"⟩ []
      rfl).1,
   (get_serializer_context_exactly_three baseSvc ⟨"UserProtoSerializer"⟩ []
      rfl).2.2⟩

/-- Claim C8: with no paginator configured, `paginate_queryset` returns
exactly `none` for every collection (the returned value, not an
exception); with pagination configured it delegates to the paginator with
the collection, the call context and the service instance. -/
theorem paginate_queryset_none_or_delegates (svc : GenericService)
    (queryset : Coll) :
    (svc.pagination_class = none → ∀ st : SvcState,
      st.pagCache = none ∨ st.pagCache = some none →
      (svc.paginate_queryset st queryset).1 = none)
    ∧ (∀ cls, svc.pagination_class = some cls →
        (svc.paginate_queryset freshSvcState queryset).1 =
          cls.paginate queryset svc.context svc.instanceId) := by
  constructor
  · intro hpc st hst
    rcases hst with h | h <;>
      simp [GenericService.paginate_queryset, GenericService.paginator,
        h, hpc]
  · intro cls hpc
    simp [GenericService.paginate_queryset, GenericService.paginator,
      freshSvcState, hpc]

/-- Witness for C8: the unpaginated service returns `none` on the
non-empty `User` collection; the paginated one returns the delegated first
page `[user1]`. -/
theorem paginate_queryset_none_or_delegates_witness :
    (baseSvc.paginate_queryset freshSvcState (.querySet userQS)).1 = none
    ∧ (svcPag.paginate_queryset freshSvcState (.querySet userQS)).1 =
      some [user1] :=
  ⟨(paginate_queryset_none_or_delegates baseSvc (.querySet userQS)).1 rfl
      freshSvcState (Or.inl rfl),
   ((paginate_queryset_none_or_delegates svcPag (.querySet userQS)).2
      pagClass rfl).trans rfl⟩

/-- A cached `_paginator` attribute makes the property a pure read. -/
theorem paginator_cache_some (svc : GenericService) (st : SvcState)
    (v : Option PaginatorInst) (h : st.pagCache = some v) :
    svc.paginator st = (v, st) := by
  simp [GenericService.paginator, h]

/-- After any access, the `_paginator` attribute holds the returned value. -/
theorem paginator_state_cached (svc : GenericService) (st : SvcState) :
    ((svc.paginator st).2).pagCache = some ((svc.paginator st).1) := by
  rcases h : st.pagCache with _ | v
  · rcases hpc : svc.pagination_class with _ | cls <;>
      simp [GenericService.paginator, h, hpc]
  · simp [GenericService.paginator, h]

/-- Starting from a fresh service state, any number of accesses to the
`paginator` property instantiates the pagination class at most once, and
after the first access the `_paginator` attribute exists. -/
theorem accessPaginatorN_fresh_invariant (svc : GenericService) (n : Nat) :
    (accessPaginatorN svc freshSvcState n).constructions ≤ 1
    ∧ (n ≠ 0 →
      ((accessPaginatorN svc freshSvcState n).pagCache).isSome = true) := by
  induction n with
  | zero =>
    exact ⟨by simp [accessPaginatorN, freshSvcState], by simp⟩
  | succ n ih =>
    rcases hc : (accessPaginatorN svc freshSvcState n).pagCache with _ | v
    · have hn : n = 0 := by
        by_contra hn0
        have hs := ih.2 hn0
        rw [hc] at hs
        simp at hs
      subst hn
      have hfresh : accessPaginatorN svc freshSvcState 0 = freshSvcState :=
        rfl
      rcases hpc : svc.pagination_class with _ | cls <;>
        simp [accessPaginatorN, hfresh, GenericService.paginator,
          freshSvcState, hpc]
    · refine ⟨?_, fun _ => ?_⟩
      · simpa [accessPaginatorN, paginator_cache_some svc _ _ hc]
          using ih.1
      · simp [accessPaginatorN, paginator_cache_some svc _ _ hc, hc]

/-- A paginator instance produced by a first access is owned by the
service instance that constructed it. -/
theorem paginator_fresh_owner (svc : GenericService) (i : PaginatorInst)
    (h : (svc.paginator freshSvcState).1 = some i) :
    i.owner = svc.instanceId := by
  rcases hpc : svc.pagination_class with _ | cls
  · simp [GenericService.paginator, freshSvcState, hpc] at h
  · simp [GenericService.paginator, freshSvcState, hpc] at h
    rw [← h]

/-- Claim C9: within one service-instance lifetime the `paginator`
property constructs the configured paginator at most once — repeated
access returns the value of the first access, which is `none` when
pagination is disabled — while a distinct service instance gets its own
fresh paginator instance. -/
theorem paginator_cached_once_per_instance (svc svc2 : GenericService)
    (st : SvcState) (hneq : svc.instanceId ≠ svc2.instanceId) :
    (svc.paginator (svc.paginator st).2).1 = (svc.paginator st).1
    ∧ (svc.pagination_class = none → st.pagCache = none →
        (svc.paginator st).1 = none)
    ∧ (∀ n, (accessPaginatorN svc freshSvcState n).constructions ≤ 1)
    ∧ (∀ i1 i2, (svc.paginator freshSvcState).1 = some i1 →
        (svc2.paginator freshSvcState).1 = some i2 → i1 ≠ i2) := by
  refine ⟨?_, ?_, ?_, ?_⟩
  · rw [paginator_cache_some svc _ _ (paginator_state_cached svc st)]
  · intro hpc hcache
    simp [GenericService.paginator, hcache, hpc]
  · intro n
    exact (accessPaginatorN_fresh_invariant svc n).1
  · intro i1 i2 h1 h2 heq
    apply hneq
    rw [← paginator_fresh_owner svc i1 h1,
      ← paginator_fresh_owner svc2 i2 h2, heq]

/-- Witness for C9: on the paginated service, a second access returns the
first access's instance; the unpaginated service yields `none`; five
accesses construct at most once; and the instances of the two distinct
service instances differ. -/
theorem paginator_cached_once_per_instance_witness :
    (svcPag.paginator (svcPag.paginator freshSvcState).2).1 =
      (svcPag.paginator freshSvcState).1
    ∧ (baseSvc.paginator freshSvcState).1 = none
    ∧ (accessPaginatorN svcPag freshSvcState 5).constructions ≤ 1
    ∧ (⟨pagClass, 0, 0⟩ : PaginatorInst) ≠ ⟨pagClass, 1, 0⟩ :=
  ⟨(paginator_cached_once_per_instance svcPag svcPag2 freshSvcState
      (by decide)).1,
   (paginator_cached_once_per_instance baseSvc svcPag2 freshSvcState
      (by decide)).2.1 rfl rfl,
   (paginator_cached_once_per_instance svcPag svcPag2 freshSvcState
      (by decide)).2.2.1 5,
   (paginator_cached_once_per_instance svcPag svcPag2 freshSvcState
      (by decide)).2.2.2 ⟨pagClass, 0, 0⟩ ⟨pagClass, 1, 0⟩ rfl rfl⟩
